import Mathlib

/-!
Shallow embedding of the Shopify integration form controller
(`ShopifyForm` component) and the `ShopifyService` response shapes.

The React component holds five `useState` slots: `integrationStatus`,
`formData`, the three in-flight flags `loading`/`saving`/`deleting`,
and the two message slots `error`/`success`.  Each async handler is
embedded as a pure function from the controller state and the remote
response(s) it awaits to a new controller state, together with the
list of delays of `setTimeout`-scheduled `onSuccess` callbacks and
the list of remote calls issued.  A thrown transport fault is the
`fault` constructor of `RemoteResult`; a structured response is `ok`.
JavaScript truthiness of optional strings (`undefined` and `""` are
falsy) is modeled by `strTruthy` / `orFallback`.
-/

/-- Payload of a successful `GET /shopify/config/{businessId}` response
(`ShopifyConfigResponse.data` in `shopify-service.ts`). -/
structure ConfigData where
  id : Nat
  business_id : Nat
  store_url : String
  access_token : Option String
  api_version : String
  is_active : Bool
  created_at : String
  updated_at : String
deriving DecidableEq

/-- `ShopifyConfigResponse` from `shopify-service.ts`. -/
structure ShopifyConfigResponse where
  success : Bool
  data : Option ConfigData
  error : Option String
deriving DecidableEq

/-- Response shape of `ShopifyService.deleteConfig`. -/
structure DeleteResponse where
  success : Bool
  error : Option String
deriving DecidableEq

/-- Response shape of `ShopifyService.testConnection`. -/
structure TestResponse where
  success : Bool
  error : Option String
  message : Option String
deriving DecidableEq

/-- Outcome of awaiting a remote call: a structured response, or a
thrown transport fault (the `catch` branch of each handler). -/
inductive RemoteResult (α : Type) where
  | ok (response : α)
  | fault
deriving DecidableEq

/-- The `integrationStatus` state slot of the component. -/
structure IntegrationStatus where
  isIntegrated : Bool
  store_url : Option String := none
  access_token : Option String := none
  api_version : Option String := none
  lastUpdated : Option String := none
deriving DecidableEq

/-- The `formData` state slot (the edit draft). -/
structure FormData where
  store_url : String
  access_token : String
  api_version : String
deriving DecidableEq

/-- The whole controller state: the five `useState` slots. -/
structure ControllerState where
  integrationStatus : IntegrationStatus
  formData : FormData
  loading : Bool
  saving : Bool
  deleting : Bool
  error : Option String
  success : Option String
deriving DecidableEq

/-- The `useState` initializers of the component. -/
def initialState : ControllerState :=
  { integrationStatus := { isIntegrated := false }
    formData := { store_url := "", access_token := "", api_version := "2024-01" }
    loading := false
    saving := false
    deleting := false
    error := none
    success := none }

/-- The four remote operations of `ShopifyService`. -/
inductive RemoteCall where
  | getConfig
  | saveConfig
  | deleteConfig
  | testConnection
deriving DecidableEq

/-- Result of running a handler: the new controller state, the delays
(ms) of the `setTimeout` callbacks it scheduled, and the remote calls
it issued, in order. -/
structure HandlerOutput where
  state : ControllerState
  scheduled : List Nat
  calls : List RemoteCall
deriving DecidableEq

/-- JavaScript truthiness of an optional string: `undefined` and the
empty string are falsy. -/
def strTruthy : Option String → Bool
  | none => false
  | some s => !(s == "")

/-- JavaScript `o || fb` on an optional string. -/
def orFallback (o : Option String) (fb : String) : String :=
  match o with
  | some s => if s == "" then fb else s
  | none => fb

/-- The fixed token masking string shown when a token is known
server-side: 16 bullet characters. -/
def maskString : String := "••••••••••••••••"

/-- `fetchIntegrationStatus` from the component: sets `loading`,
clears `error`, awaits `getConfig`, and populates
`integrationStatus`/`formData` from the response (masking the token
and blanking the draft token) or falls back to not-integrated. -/
def fetchIntegrationStatus (s : ControllerState)
    (resp : RemoteResult ShopifyConfigResponse) : ControllerState :=
  let s1 := { s with loading := true, error := none }
  match resp with
  | .ok response =>
    let s2 :=
      if response.success then
        match response.data with
        | some data =>
          { s1 with
            integrationStatus :=
              { isIntegrated := true
                store_url := some data.store_url
                access_token :=
                  if strTruthy data.access_token then some maskString else none
                api_version := some data.api_version
                lastUpdated := some data.updated_at }
            formData :=
              { store_url := data.store_url
                access_token := ""
                api_version := data.api_version } }
        | none => { s1 with integrationStatus := { isIntegrated := false } }
      else
        { s1 with integrationStatus := { isIntegrated := false } }
    { s2 with loading := false }
  | .fault =>
    { s1 with
      error := some "Failed to fetch integration status"
      integrationStatus := { isIntegrated := false }
      loading := false }

/-- The draft fields editable through `handleInputChange`. -/
inductive FormField where
  | store_url
  | access_token
  | api_version
deriving DecidableEq

/-- `handleInputChange` from the component: pure local draft update. -/
def handleInputChange (s : ControllerState) (field : FormField)
    (value : String) : ControllerState :=
  match field with
  | .store_url => { s with formData := { s.formData with store_url := value } }
  | .access_token => { s with formData := { s.formData with access_token := value } }
  | .api_version => { s with formData := { s.formData with api_version := value } }

/-- `handleSaveConfig` from the component.  `hasOnSuccess` records
whether the `onSuccess` prop was supplied; `saveResp` is the awaited
`saveConfig` outcome and `fetchResp` the outcome of the `getConfig`
issued by the embedded `fetchIntegrationStatus` re-fetch (consulted
only on structured save success). -/
def handleSaveConfig (s : ControllerState) (hasOnSuccess : Bool)
    (saveResp : RemoteResult ShopifyConfigResponse)
    (fetchResp : RemoteResult ShopifyConfigResponse) : HandlerOutput :=
  let s1 := { s with saving := true, error := none, success := none }
  match saveResp with
  | .ok response =>
    if response.success then
      let s2 := { s1 with success := some "Shopify configuration saved successfully!" }
      let s3 := fetchIntegrationStatus s2 fetchResp
      { state := { s3 with saving := false }
        scheduled := if hasOnSuccess then [1500] else []
        calls := [.saveConfig, .getConfig] }
    else
      { state :=
          { s1 with
            error := some (orFallback response.error "Failed to save configuration")
            saving := false }
        scheduled := []
        calls := [.saveConfig] }
  | .fault =>
    { state := { s1 with error := some "An unexpected error occurred", saving := false }
      scheduled := []
      calls := [.saveConfig] }

/-- `handleDeleteConfig` from the component.  `confirmed` is the
result of the `window.confirm` gate: when declined the handler
returns before doing anything. -/
def handleDeleteConfig (s : ControllerState) (confirmed : Bool)
    (hasOnSuccess : Bool) (resp : RemoteResult DeleteResponse) : HandlerOutput :=
  if !confirmed then
    { state := s, scheduled := [], calls := [] }
  else
    let s1 := { s with deleting := true, error := none, success := none }
    match resp with
    | .ok response =>
      if response.success then
        { state :=
            { s1 with
              success := some "Shopify disconnected successfully!"
              integrationStatus := { isIntegrated := false }
              formData := { store_url := "", access_token := "", api_version := "2024-01" }
              deleting := false }
          scheduled := if hasOnSuccess then [1500] else []
          calls := [.deleteConfig] }
      else
        { state :=
            { s1 with
              error := some (orFallback response.error "Failed to disconnect")
              deleting := false }
          scheduled := []
          calls := [.deleteConfig] }
    | .fault =>
      { state := { s1 with error := some "An unexpected error occurred", deleting := false }
        scheduled := []
        calls := [.deleteConfig] }

/-- `handleTestConnection` from the component: toggles `loading`,
clears both messages, and sets exactly one message from the
response. -/
def handleTestConnection (s : ControllerState)
    (resp : RemoteResult TestResponse) : HandlerOutput :=
  let s1 := { s with loading := true, error := none, success := none }
  match resp with
  | .ok response =>
    if response.success then
      { state :=
          { s1 with
            success := some (orFallback response.message "Connection successful!")
            loading := false }
        scheduled := []
        calls := [.testConnection] }
    else
      { state :=
          { s1 with
            error := some (orFallback response.error "Connection test failed")
            loading := false }
        scheduled := []
        calls := [.testConnection] }
  | .fault =>
    { state := { s1 with error := some "Connection test failed", loading := false }
      scheduled := []
      calls := [.testConnection] }

/-- At most one of the two message slots is populated. -/
def msgsMutex (s : ControllerState) : Prop :=
  s.error = none ∨ s.success = none

/-- Structured success of a config response outcome. -/
def okSuccess : RemoteResult ShopifyConfigResponse → Bool
  | .ok r => r.success
  | .fault => false

/-- Claim C7: a test-connection action never changes `integrationStatus`,
the form draft, or the other in-flight flags, on any outcome; it ends
with `loading` false, and a transport fault sets the error message
"Connection test failed". -/
theorem testConnection_frame (s : ControllerState) (resp : RemoteResult TestResponse) :
    (handleTestConnection s resp).state.integrationStatus = s.integrationStatus ∧
    (handleTestConnection s resp).state.formData = s.formData ∧
    (handleTestConnection s resp).state.saving = s.saving ∧
    (handleTestConnection s resp).state.deleting = s.deleting ∧
    (handleTestConnection s resp).state.loading = false ∧
    (handleTestConnection s resp).scheduled = [] ∧
    (handleTestConnection s .fault).state.error = some "Connection test failed" := by
  rcases resp with ⟨r⟩ | _
  · rcases r with ⟨(_ | _), e, m⟩ <;>
      simp [handleTestConnection]
  · simp [handleTestConnection]

/-- Claim C8: a declined delete confirmation is a complete no-op: the
state is returned unchanged, nothing is scheduled, and no remote call
(in particular no `deleteConfig`) is issued. -/
theorem deleteDeclined_noop (s : ControllerState) (hasOnSuccess : Bool)
    (resp : RemoteResult DeleteResponse) :
    handleDeleteConfig s false hasOnSuccess resp
      = { state := s, scheduled := [], calls := [] } := rfl

/-- Claim C9: every operation ends with its in-flight flag false on
every outcome (structured success, structured failure, or transport
fault): `loading` after a status fetch or a connection test, `saving`
after a save, `deleting` after a confirmed delete. -/
theorem flags_reset (s : ControllerState) (hasOnSuccess : Bool)
    (fetchResp saveResp refetchResp : RemoteResult ShopifyConfigResponse)
    (delResp : RemoteResult DeleteResponse) (testResp : RemoteResult TestResponse) :
    (fetchIntegrationStatus s fetchResp).loading = false ∧
    (handleSaveConfig s hasOnSuccess saveResp refetchResp).state.saving = false ∧
    (handleDeleteConfig s true hasOnSuccess delResp).state.deleting = false ∧
    (handleTestConnection s testResp).state.loading = false := by
  refine ⟨?_, ?_, ?_, ?_⟩
  · rcases fetchResp with ⟨r⟩ | _
    · rcases r with ⟨(_ | _), (_ | d), e⟩ <;> simp [fetchIntegrationStatus]
    · simp [fetchIntegrationStatus]
  · rcases saveResp with ⟨r⟩ | _
    · rcases r with ⟨(_ | _), d, e⟩
      · simp [handleSaveConfig]
      · rcases refetchResp with ⟨r2⟩ | _
        · rcases r2 with ⟨(_ | _), (_ | d2), e2⟩ <;>
            simp [handleSaveConfig, fetchIntegrationStatus]
        · simp [handleSaveConfig, fetchIntegrationStatus]
    · simp [handleSaveConfig]
  · rcases delResp with ⟨r⟩ | _
    · rcases r with ⟨(_ | _), e⟩ <;> simp [handleDeleteConfig]
    · simp [handleDeleteConfig]
  · rcases testResp with ⟨r⟩ | _
    · rcases r with ⟨(_ | _), e, m⟩ <;> simp [handleTestConnection]
    · simp [handleTestConnection]

/-- Claim C10: a status fetch whose response is `success:true` with
data — including the automatic re-fetch performed by a save whose
response has `success:true` — overwrites the draft `store_url` and
`api_version` with the server values and blanks the draft token,
discarding any unsaved edits. -/
theorem fetch_overwrites_draft (s : ControllerState) (hasOnSuccess : Bool)
    (dd : Option ConfigData) (data : ConfigData) (oe ee : Option String) :
    (fetchIntegrationStatus s
        (.ok { success := true, data := some data, error := oe })).formData
      = { store_url := data.store_url, access_token := "", api_version := data.api_version } ∧
    (handleSaveConfig s hasOnSuccess
        (.ok { success := true, data := dd, error := ee })
        (.ok { success := true, data := some data, error := oe })).state.formData
      = { store_url := data.store_url, access_token := "", api_version := data.api_version } := by
  constructor
  · simp [fetchIntegrationStatus]
  · simp [handleSaveConfig, fetchIntegrationStatus]

/-- Claim C5: a status fetch whose response is `success:false` or has
no data settles to not-integrated with no error surfaced; a transport
fault sets the error "Failed to fetch integration status" and also
settles to not-integrated; and a stale error never survives a fetch:
after any structured response the error slot is `none`, and after a
fault it is exactly the fetch error message, whatever the prior
error was. -/
theorem fetch_error_handling (s : ControllerState) (r : ShopifyConfigResponse)
    (h : r.success = false ∨ r.data = none) :
    (fetchIntegrationStatus s (.ok r)).integrationStatus = { isIntegrated := false } ∧
    (fetchIntegrationStatus s (.ok r)).error = none ∧
    (fetchIntegrationStatus s .fault).error = some "Failed to fetch integration status" ∧
    (fetchIntegrationStatus s .fault).integrationStatus = { isIntegrated := false } ∧
    (∀ r2 : ShopifyConfigResponse, (fetchIntegrationStatus s (.ok r2)).error = none) := by
  refine ⟨?_, ?_, ?_, ?_, ?_⟩
  · rcases r with ⟨(_ | _), (_ | d), e⟩ <;>
      simp_all [fetchIntegrationStatus]
  · rcases r with ⟨(_ | _), (_ | d), e⟩ <;>
      simp_all [fetchIntegrationStatus]
  · simp [fetchIntegrationStatus]
  · simp [fetchIntegrationStatus]
  · intro r2
    rcases r2 with ⟨(_ | _), (_ | d2), e2⟩ <;> simp [fetchIntegrationStatus]

/-- Witness for `fetch_error_handling`: a concrete not-found response. -/
theorem fetch_error_handling_witness :
    (({ success := false, data := none, error := none } : ShopifyConfigResponse).success = false ∨
      ({ success := false, data := none, error := none } : ShopifyConfigResponse).data = none) ∧
    ((fetchIntegrationStatus initialState
        (.ok { success := false, data := none, error := none })).integrationStatus
        = { isIntegrated := false } ∧
      (fetchIntegrationStatus initialState
        (.ok { success := false, data := none, error := none })).error = none ∧
      (fetchIntegrationStatus initialState .fault).error
        = some "Failed to fetch integration status" ∧
      (fetchIntegrationStatus initialState .fault).integrationStatus
        = { isIntegrated := false } ∧
      (∀ r2 : ShopifyConfigResponse,
        (fetchIntegrationStatus initialState (.ok r2)).error = none)) :=
  ⟨by decide,
    fetch_error_handling initialState { success := false, data := none, error := none }
      (by decide)⟩

/-- Claim C3: a confirmed delete with `success:true` resets
`integrationStatus` to not-integrated and the draft to its defaults
(empty `store_url`, empty `access_token`, `api_version` "2024-01"),
sets a success message, and schedules the `onSuccess` callback
exactly once with a 1500 ms delay iff it was supplied; on
`success:false` or a transport fault it sets an error and leaves the
previously displayed status unchanged. -/
theorem deleteConfirmed_behavior (s : ControllerState) (hasOnSuccess : Bool)
    (r rf : DeleteResponse) (h : r.success = true) (hf : rf.success = false) :
    (handleDeleteConfig s true hasOnSuccess (.ok r)).state.integrationStatus
      = { isIntegrated := false } ∧
    (handleDeleteConfig s true hasOnSuccess (.ok r)).state.formData
      = { store_url := "", access_token := "", api_version := "2024-01" } ∧
    (handleDeleteConfig s true hasOnSuccess (.ok r)).state.success
      = some "Shopify disconnected successfully!" ∧
    (handleDeleteConfig s true hasOnSuccess (.ok r)).scheduled
      = (if hasOnSuccess then [1500] else []) ∧
    ((handleDeleteConfig s true hasOnSuccess (.ok rf)).state.error).isSome = true ∧
    (handleDeleteConfig s true hasOnSuccess (.ok rf)).state.integrationStatus
      = s.integrationStatus ∧
    (handleDeleteConfig s true hasOnSuccess (.ok rf)).scheduled = [] ∧
    ((handleDeleteConfig s true hasOnSuccess .fault).state.error).isSome = true ∧
    (handleDeleteConfig s true hasOnSuccess .fault).state.integrationStatus
      = s.integrationStatus ∧
    (handleDeleteConfig s true hasOnSuccess .fault).scheduled = [] := by
  rcases r with ⟨(_ | _), e⟩ <;> rcases rf with ⟨(_ | _), ef⟩ <;>
    simp_all [handleDeleteConfig]

/-- Witness for `deleteConfirmed_behavior`: a concrete successful and a
concrete failing delete response. -/
theorem deleteConfirmed_behavior_witness :
    (({ success := true, error := none } : DeleteResponse).success = true ∧
      ({ success := false, error := none } : DeleteResponse).success = false) ∧
    ((handleDeleteConfig initialState true true
        (.ok { success := true, error := none })).state.integrationStatus
        = { isIntegrated := false } ∧
      (handleDeleteConfig initialState true true
        (.ok { success := true, error := none })).state.formData
        = { store_url := "", access_token := "", api_version := "2024-01" } ∧
      (handleDeleteConfig initialState true true
        (.ok { success := true, error := none })).state.success
        = some "Shopify disconnected successfully!" ∧
      (handleDeleteConfig initialState true true
        (.ok { success := true, error := none })).scheduled
        = (if true then [1500] else []) ∧
      ((handleDeleteConfig initialState true true
        (.ok { success := false, error := none })).state.error).isSome = true ∧
      (handleDeleteConfig initialState true true
        (.ok { success := false, error := none })).state.integrationStatus
        = initialState.integrationStatus ∧
      (handleDeleteConfig initialState true true
        (.ok { success := false, error := none })).scheduled = [] ∧
      ((handleDeleteConfig initialState true true .fault).state.error).isSome = true ∧
      (handleDeleteConfig initialState true true .fault).state.integrationStatus
        = initialState.integrationStatus ∧
      (handleDeleteConfig initialState true true .fault).scheduled = []) :=
  ⟨⟨by decide, by decide⟩,
    deleteConfirmed_behavior initialState true
      { success := true, error := none } { success := false, error := none }
      (by decide) (by decide)⟩

/-- Claim C1 fails on the code: starting from the initial state, a save
whose response has `success:true` but whose automatic status re-fetch
faults leaves BOTH message slots populated — the fetch fault sets the
error without clearing the save success message. -/
theorem msgs_both_set_after_save_refetch_fault :
    (handleSaveConfig initialState false
        (.ok { success := true, data := none, error := none }) .fault).state.error
      = some "Failed to fetch integration status" ∧
    (handleSaveConfig initialState false
        (.ok { success := true, data := none, error := none }) .fault).state.success
      = some "Shopify configuration saved successfully!" := by
  constructor <;> rfl

/-- Claim C1 (amended): the save, confirmed-delete and test-connection
handlers clear both message slots on entry and set at most one, so
their results keep the slots mutually exclusive — except that a save
whose re-fetch faults sets the fetch error on top of the save success
message.  A status fetch clears only the error slot: its result is
mutually exclusive when the fetch returns a structured response, or
when no success message was pending. -/
theorem msgs_mutex_amended (s : ControllerState) (hasOnSuccess : Bool)
    (saveResp fetchResp refetchResp : RemoteResult ShopifyConfigResponse)
    (delResp : RemoteResult DeleteResponse) (testResp : RemoteResult TestResponse)
    (hsave : ¬(okSuccess saveResp = true ∧ fetchResp = RemoteResult.fault))
    (hfetch : refetchResp = RemoteResult.fault → s.success = none) :
    msgsMutex (handleSaveConfig s hasOnSuccess saveResp fetchResp).state ∧
    msgsMutex (handleDeleteConfig s true hasOnSuccess delResp).state ∧
    msgsMutex (handleTestConnection s testResp).state ∧
    msgsMutex (fetchIntegrationStatus s refetchResp) := by
  refine ⟨?_, ?_, ?_, ?_⟩
  · rcases saveResp with ⟨r⟩ | _
    · rcases r with ⟨(_ | _), d, e⟩
      · right; simp [handleSaveConfig, msgsMutex]
      · rcases fetchResp with ⟨r2⟩ | _
        · rcases r2 with ⟨(_ | _), (_ | d2), e2⟩ <;>
            · left
              simp [handleSaveConfig, fetchIntegrationStatus, msgsMutex]
        · exact absurd ⟨rfl, rfl⟩ hsave
    · right; simp [handleSaveConfig, msgsMutex]
  · rcases delResp with ⟨r⟩ | _
    · rcases r with ⟨(_ | _), e⟩
      · right; simp [handleDeleteConfig, msgsMutex]
      · left; simp [handleDeleteConfig, msgsMutex]
    · right; simp [handleDeleteConfig, msgsMutex]
  · rcases testResp with ⟨r⟩ | _
    · rcases r with ⟨(_ | _), e, m⟩
      · right; simp [handleTestConnection, msgsMutex]
      · left; simp [handleTestConnection, msgsMutex]
    · right; simp [handleTestConnection, msgsMutex]
  · rcases refetchResp with ⟨r⟩ | _
    · rcases r with ⟨(_ | _), (_ | d), e⟩ <;>
        · left
          simp [fetchIntegrationStatus, msgsMutex]
    · right
      simp [fetchIntegrationStatus, msgsMutex, hfetch rfl]

/-- Witness for `msgs_mutex_amended` at concrete responses. -/
theorem msgs_mutex_amended_witness :
    (¬(okSuccess (.ok { success := true, data := none, error := none }) = true ∧
        (RemoteResult.ok ({ success := false, data := none, error := none } :
          ShopifyConfigResponse)) = RemoteResult.fault) ∧
      ((RemoteResult.ok ({ success := true, data := none, error := none } :
          ShopifyConfigResponse)) = RemoteResult.fault → initialState.success = none)) ∧
    (msgsMutex (handleSaveConfig initialState true
        (.ok { success := true, data := none, error := none })
        (.ok { success := false, data := none, error := none })).state ∧
      msgsMutex (handleDeleteConfig initialState true true
        (.ok { success := true, error := none })).state ∧
      msgsMutex (handleTestConnection initialState .fault).state ∧
      msgsMutex (fetchIntegrationStatus initialState
        (.ok { success := true, data := none, error := none }))) :=
  ⟨⟨by decide, by decide⟩,
    msgs_mutex_amended initialState true
      (.ok { success := true, data := none, error := none })
      (.ok { success := false, data := none, error := none })
      (.ok { success := true, data := none, error := none })
      (.ok { success := true, error := none }) .fault
      (by decide) (by decide)⟩

/-- Claim C2 fails on the code for deletes: a confirmed delete whose
response has `success:true` issues only `deleteConfig` — no
`getConfig` re-fetch happens before the handler settles. -/
theorem delete_does_not_refetch :
    (handleDeleteConfig initialState true false
        (.ok { success := true, error := none })).calls = [RemoteCall.deleteConfig] ∧
    RemoteCall.getConfig ∉
      (handleDeleteConfig initialState true false
        (.ok { success := true, error := none })).calls := by
  constructor
  · rfl
  · decide

/-- Claim C2 (amended): a save whose response has `success:true`
re-fetches the authoritative status via `getConfig` before settling
back to Idle (`saving` false); a confirmed delete with `success:true`
does NOT re-fetch — it issues only `deleteConfig` and resets the
displayed status to not-integrated locally. -/
theorem save_refetches_delete_does_not (s : ControllerState) (hasOnSuccess : Bool)
    (r : ShopifyConfigResponse) (fetchResp : RemoteResult ShopifyConfigResponse)
    (dr : DeleteResponse) (hs : r.success = true) (hd : dr.success = true) :
    (handleSaveConfig s hasOnSuccess (.ok r) fetchResp).calls
      = [RemoteCall.saveConfig, RemoteCall.getConfig] ∧
    (handleSaveConfig s hasOnSuccess (.ok r) fetchResp).state.saving = false ∧
    (handleDeleteConfig s true hasOnSuccess (.ok dr)).calls
      = [RemoteCall.deleteConfig] ∧
    (handleDeleteConfig s true hasOnSuccess (.ok dr)).state.integrationStatus
      = { isIntegrated := false } := by
  rcases r with ⟨_, d, e⟩
  rcases dr with ⟨_, ed⟩
  subst hs; subst hd
  refine ⟨?_, ?_, ?_, ?_⟩
  · simp [handleSaveConfig]
  · rcases fetchResp with ⟨r2⟩ | _
    · rcases r2 with ⟨(_ | _), (_ | d2), e2⟩ <;>
        simp [handleSaveConfig, fetchIntegrationStatus]
    · simp [handleSaveConfig, fetchIntegrationStatus]
  · simp [handleDeleteConfig]
  · simp [handleDeleteConfig]

/-- Witness for `save_refetches_delete_does_not` at concrete
responses. -/
theorem save_refetches_witness :
    (({ success := true, data := none, error := none } :
        ShopifyConfigResponse).success = true ∧
      ({ success := true, error := none } : DeleteResponse).success = true) ∧
    ((handleSaveConfig initialState false
        (.ok { success := true, data := none, error := none }) .fault).calls
        = [RemoteCall.saveConfig, RemoteCall.getConfig] ∧
      (handleSaveConfig initialState false
        (.ok { success := true, data := none, error := none }) .fault).state.saving
        = false ∧
      (handleDeleteConfig initialState true false
        (.ok { success := true, error := none })).calls = [RemoteCall.deleteConfig] ∧
      (handleDeleteConfig initialState true false
        (.ok { success := true, error := none })).state.integrationStatus
        = { isIntegrated := false }) :=
  ⟨⟨by decide, by decide⟩,
    save_refetches_delete_does_not initialState false
      { success := true, data := none, error := none } .fault
      { success := true, error := none } (by decide) (by decide)⟩

/-- Claim C4 fails on the code at one edge: a save response
`{success:false, error:""}` carries a server-provided error string,
but `response.error || "Failed to save configuration"` treats the
empty string as absent and surfaces the fallback, not the empty
string verbatim. -/
theorem save_empty_error_not_verbatim :
    (handleSaveConfig initialState false
        (.ok { success := false, data := none, error := some "" }) .fault).state.error
      = some "Failed to save configuration" ∧
    (handleSaveConfig initialState false
        (.ok { success := false, data := none, error := some "" }) .fault).state.error
      ≠ some "" := by
  constructor
  · rfl
  · decide

/-- Claim C4 (amended): a save whose response has `success:false`
surfaces the server-provided error string verbatim when it is present
and non-empty, and the fixed fallback "Failed to save configuration"
when it is absent or empty, leaving `integrationStatus` unchanged in
either case; a transport fault during save surfaces "An unexpected
error occurred" instead. -/
theorem save_failure_error_handling (s : ControllerState) (hasOnSuccess : Bool)
    (fetchResp : RemoteResult ShopifyConfigResponse)
    (d : Option ConfigData) (oe : Option String) (e : String) (he : e ≠ "") :
    (handleSaveConfig s hasOnSuccess
        (.ok { success := false, data := d, error := some e }) fetchResp).state.error
      = some e ∧
    (handleSaveConfig s hasOnSuccess
        (.ok { success := false, data := d, error := none }) fetchResp).state.error
      = some "Failed to save configuration" ∧
    (handleSaveConfig s hasOnSuccess
        (.ok { success := false, data := d, error := some "" }) fetchResp).state.error
      = some "Failed to save configuration" ∧
    (handleSaveConfig s hasOnSuccess
        (.ok { success := false, data := d, error := oe }) fetchResp).state.integrationStatus
      = s.integrationStatus ∧
    (handleSaveConfig s hasOnSuccess .fault fetchResp).state.error
      = some "An unexpected error occurred" ∧
    (handleSaveConfig s hasOnSuccess .fault fetchResp).state.integrationStatus
      = s.integrationStatus := by
  refine ⟨?_, ?_, ?_, ?_, ?_, ?_⟩ <;>
    simp [handleSaveConfig, orFallback, he]

/-- Witness for `save_failure_error_handling` at a concrete non-empty
server error string. -/
theorem save_failure_error_handling_witness :
    ("bad token" ≠ "") ∧
    ((handleSaveConfig initialState false
        (.ok { success := false, data := none, error := some "bad token" }) .fault).state.error
        = some "bad token" ∧
      (handleSaveConfig initialState false
        (.ok { success := false, data := none, error := none }) .fault).state.error
        = some "Failed to save configuration" ∧
      (handleSaveConfig initialState false
        (.ok { success := false, data := none, error := some "" }) .fault).state.error
        = some "Failed to save configuration" ∧
      (handleSaveConfig initialState false
        (.ok { success := false, data := none, error := some "bad token" }) .fault).state.integrationStatus
        = initialState.integrationStatus ∧
      (handleSaveConfig initialState false .fault .fault).state.error
        = some "An unexpected error occurred" ∧
      (handleSaveConfig initialState false .fault .fault).state.integrationStatus
        = initialState.integrationStatus) :=
  ⟨by decide,
    save_failure_error_handling initialState false .fault none
      (some "bad token") "bad token" (by decide)⟩

/-- Claim C6 fails on the code: a fetch that does not find a config
leaves the draft untouched, so after typing a token into the draft
and then running a status fetch whose response is `success:false`,
the draft `access_token` is still the typed value, not the empty
string. -/
theorem fetch_keeps_typed_draft_token :
    (fetchIntegrationStatus
        (handleInputChange initialState .access_token "shpat_x")
        (.ok { success := false, data := none, error := none })).formData.access_token
      = "shpat_x" ∧
    (fetchIntegrationStatus
        (handleInputChange initialState .access_token "shpat_x")
        (.ok { success := false, data := none, error := none })).formData.access_token
      ≠ "" := by
  constructor
  · rfl
  · decide

/-- Claim C6 (amended): a status fetch that finds a config
(`success:true` with data) blanks the draft `access_token`; a fetch
that finds no config or faults leaves the draft unchanged — so the
draft token is empty after every fetch that starts from an empty
draft token (in particular on initial load), and it is never
populated from server data.  Whenever the server reports a non-empty
token, the displayed `integrationStatus.access_token` is exactly the
fixed masking string of 16 bullet characters, and it is `none` when
the server token is absent or empty. -/
theorem fetch_token_masking (s : ControllerState) (d d2 : ConfigData)
    (oe oe2 : Option String) (r : ShopifyConfigResponse)
    (anyResp : RemoteResult ShopifyConfigResponse)
    (ht : strTruthy d.access_token = true)
    (ht2 : strTruthy d2.access_token = false)
    (hr : r.success = false ∨ r.data = none)
    (h0 : s.formData.access_token = "") :
    (fetchIntegrationStatus s
        (.ok { success := true, data := some d, error := oe })).formData.access_token
      = "" ∧
    (fetchIntegrationStatus s
        (.ok { success := true, data := some d, error := oe })).integrationStatus.access_token
      = some maskString ∧
    (fetchIntegrationStatus s
        (.ok { success := true, data := some d2, error := oe2 })).integrationStatus.access_token
      = none ∧
    (fetchIntegrationStatus s (.ok r)).formData = s.formData ∧
    (fetchIntegrationStatus s .fault).formData = s.formData ∧
    (fetchIntegrationStatus s anyResp).formData.access_token = "" ∧
    maskString.length = 16 ∧
    maskString.toList.all (fun c => c == '•') = true := by
  refine ⟨?_, ?_, ?_, ?_, ?_, ?_, ?_, ?_⟩
  · simp [fetchIntegrationStatus]
  · simp [fetchIntegrationStatus, ht]
  · simp [fetchIntegrationStatus, ht2]
  · rcases r with ⟨(_ | _), (_ | dr), e⟩ <;>
      simp_all [fetchIntegrationStatus]
  · simp [fetchIntegrationStatus]
  · rcases anyResp with ⟨r2⟩ | _
    · rcases r2 with ⟨(_ | _), (_ | dr2), e2⟩ <;>
        simp_all [fetchIntegrationStatus]
    · simp_all [fetchIntegrationStatus]
  · decide
  · decide

/-- Witness for `fetch_token_masking` at concrete server data. -/
theorem fetch_token_masking_witness :
    (strTruthy (some "shpat_x") = true ∧
      strTruthy (none : Option String) = false ∧
      (({ success := false, data := none, error := none } :
          ShopifyConfigResponse).success = false ∨
        ({ success := false, data := none, error := none } :
          ShopifyConfigResponse).data = none) ∧
      initialState.formData.access_token = "") ∧
    ((fetchIntegrationStatus initialState
        (.ok { success := true,
               data := some { id := 1, business_id := 2, store_url := "a.myshopify.com",
                              access_token := some "shpat_x", api_version := "2024-01",
                              is_active := true, created_at := "c", updated_at := "u" },
               error := none })).formData.access_token = "" ∧
      (fetchIntegrationStatus initialState
        (.ok { success := true,
               data := some { id := 1, business_id := 2, store_url := "a.myshopify.com",
                              access_token := some "shpat_x", api_version := "2024-01",
                              is_active := true, created_at := "c", updated_at := "u" },
               error := none })).integrationStatus.access_token = some maskString ∧
      (fetchIntegrationStatus initialState
        (.ok { success := true,
               data := some { id := 1, business_id := 2, store_url := "a.myshopify.com",
                              access_token := none, api_version := "2024-01",
                              is_active := true, created_at := "c", updated_at := "u" },
               error := none })).integrationStatus.access_token = none ∧
      (fetchIntegrationStatus initialState
        (.ok { success := false, data := none, error := none })).formData
        = initialState.formData ∧
      (fetchIntegrationStatus initialState .fault).formData = initialState.formData ∧
      (fetchIntegrationStatus initialState .fault).formData.access_token = "" ∧
      maskString.length = 16 ∧
      maskString.toList.all (fun c => c == '•') = true) :=
  ⟨⟨by decide, by decide, by decide, by decide⟩,
    fetch_token_masking initialState
      { id := 1, business_id := 2, store_url := "a.myshopify.com",
        access_token := some "shpat_x", api_version := "2024-01",
        is_active := true, created_at := "c", updated_at := "u" }
      { id := 1, business_id := 2, store_url := "a.myshopify.com",
        access_token := none, api_version := "2024-01",
        is_active := true, created_at := "c", updated_at := "u" }
      none none { success := false, data := none, error := none } .fault
      (by decide) (by decide) (by decide) (by decide)⟩
